import Mathlib

/-!
Verification of the `joaomcorreia/trade` backends.

This file gives a shallow embedding, in Lean 4 over exact rational arithmetic,
of the code the specification's claims are about:

* `ai_trading_backend.py`   : the list-based `calculate_rsi`;
* `realtime_ai_backend.py`  : the pandas-based `calculate_rsi` / `calculate_macd`,
  the TTL price cache `get_yahoo_finance_data`, `get_technical_indicators`,
  and the websocket `ConnectionManager`;
* `enhanced_ai_trading_backend.py` : the price fallback chain `get_market_price`
  and the scoring engine `generate_ai_signal_with_analysis`;
* `backend/app/services/market_data.py` : `MarketDataService.get_technical_indicators`;
* `backend/app/ai/trading_ai.py` : `TradingAI._calculate_confidence`;
* `backend/app/core/websocket.py` and `backend/app/api/endpoints/websocket.py` :
  the broadcast manager and the client message handler.

Conventions: Python floats are modelled as `ℚ` (a float `NaN` produced by pandas
is modelled as `none : Option ℚ`); `random.uniform` / `random.choice` draws are
explicit parameters; `await`-free function bodies are modelled as atomic state
transitions, which is faithful to asyncio because such a body cannot be
interleaved with another task of the same event loop.
-/

namespace Trade

/-- Python `round(x, 2)` modelled over `ℚ`: round to the nearest multiple of
`1/100`.  (Python rounds ties to even; Lean's `round` rounds ties up.  No claim
in this file depends on the value at an exact tie.) -/
def round2 (q : ℚ) : ℚ := (round (q * 100) : ℤ) / 100

/-- Python `round(x, 3)` modelled over `ℚ`. -/
def round3 (q : ℚ) : ℚ := (round (q * 1000) : ℤ) / 1000

/-- Python `round(x, 4)` modelled over `ℚ`. -/
def round4 (q : ℚ) : ℚ := (round (q * 10000) : ℤ) / 10000

namespace AiTradingBackend

/-- The `gains` list built by the loop in `calculate_rsi`
(`ai_trading_backend.py` lines 83-93): for each consecutive pair, the positive
change, else `0`. -/
def gains (prices : List ℚ) : List ℚ :=
  (prices.zip prices.tail).map (fun p => if p.2 - p.1 > 0 then p.2 - p.1 else 0)

/-- The `losses` list built by the same loop: `abs(change)` for a non-positive
change, else `0`. -/
def losses (prices : List ℚ) : List ℚ :=
  (prices.zip prices.tail).map (fun p => if p.2 - p.1 > 0 then 0 else |p.2 - p.1|)

/-- The mean `avg_gain = sum(gains[-period:]) / period` (line 95).  Python's negative
slice `l[-period:]` is `drop (length - period)`. -/
def avg_gain (prices : List ℚ) (period : ℕ) : ℚ :=
  ((gains prices).drop ((gains prices).length - period)).sum / period

/-- The mean `avg_loss = sum(losses[-period:]) / period` (line 96). -/
def avg_loss (prices : List ℚ) (period : ℕ) : ℚ :=
  ((losses prices).drop ((losses prices).length - period)).sum / period

/-- The function `calculate_rsi` from `ai_trading_backend.py` lines 78-103: neutral `50.0`
when fewer than `period` prices, `100.0` when the trailing average loss is
zero, otherwise `100 - 100 / (1 + rs)` with `rs = avg_gain / avg_loss`. -/
def calculate_rsi (prices : List ℚ) (period : ℕ := 14) : ℚ :=
  if prices.length < period then 50
  else if avg_loss prices period = 0 then 100
  else 100 - 100 / (1 + avg_gain prices period / avg_loss prices period)

theorem gains_nonneg (prices : List ℚ) : ∀ x ∈ gains prices, 0 ≤ x := by
  intro x hx
  simp only [gains, List.mem_map] at hx
  obtain ⟨p, -, rfl⟩ := hx
  split
  · linarith
  · exact le_refl 0

theorem losses_nonneg (prices : List ℚ) : ∀ x ∈ losses prices, 0 ≤ x := by
  intro x hx
  simp only [losses, List.mem_map] at hx
  obtain ⟨p, -, rfl⟩ := hx
  split
  · exact le_refl 0
  · exact abs_nonneg _

theorem avg_gain_nonneg (prices : List ℚ) (period : ℕ) : 0 ≤ avg_gain prices period := by
  apply div_nonneg _ (Nat.cast_nonneg period)
  exact List.sum_nonneg fun x hx => gains_nonneg prices x (List.mem_of_mem_drop hx)

theorem avg_loss_nonneg (prices : List ℚ) (period : ℕ) : 0 ≤ avg_loss prices period := by
  apply div_nonneg _ (Nat.cast_nonneg period)
  exact List.sum_nonneg fun x hx => losses_nonneg prices x (List.mem_of_mem_drop hx)

end AiTradingBackend

namespace Pandas

/-- pandas `Series.diff()`: first entry `NaN` (modelled `none`), then
consecutive differences. -/
def diffList (xs : List ℚ) : List (Option ℚ) :=
  match xs with
  | [] => []
  | _ :: _ => none :: (xs.zip xs.tail).map (fun p => some (p.2 - p.1))

/-- pandas `delta.where(delta > 0, 0)`: keep a positive value, else `0`.
A `NaN` compares false, so it is replaced by `0` as well. -/
def whereGain (d : Option ℚ) : ℚ :=
  match d with
  | some v => if v > 0 then v else 0
  | none => 0

/-- pandas `(-delta.where(delta < 0, 0))`: the negated negative value, else
`0`; `NaN` compares false and becomes `0`. -/
def whereLoss (d : Option ℚ) : ℚ :=
  match d with
  | some v => if v < 0 then -v else 0
  | none => 0

/-- pandas `Series.rolling(window=w).mean()` with the default
`min_periods = w`: entry `i` is the mean of the window ending at `i` when the
window is full, `NaN` (`none`) otherwise. -/
def rollingMean (w : ℕ) (xs : List ℚ) : List (Option ℚ) :=
  (List.range xs.length).map fun i =>
    if w ≤ i + 1 then some (((xs.take (i + 1)).drop (i + 1 - w)).sum / w) else none

/-- One step of pandas `Series.ewm(span).mean()` with the default
`adjust=True`: carries the weighted numerator and denominator. -/
def ewmStep (w : ℚ) (acc : ℚ × ℚ × List ℚ) (x : ℚ) : ℚ × ℚ × List ℚ :=
  let num := acc.1 * w + x
  let den := acc.2.1 * w + 1
  (num, den, acc.2.2 ++ [num / den])

/-- pandas `Series.ewm(span=s).mean()` (`adjust=True`): entry `t` is
`Σ wⁱ·x_(t-i) / Σ wⁱ` with decay `w = (s-1)/(s+1)` (i.e. `1 - α`,
`α = 2/(s+1)`). -/
def ewmMean (span : ℚ) (xs : List ℚ) : List ℚ :=
  (xs.foldl (ewmStep ((span - 1) / (span + 1))) (0, 0, [])).2.2

/-- One entry of the float expression `100 - 100/(1 + gain/loss)`, with IEEE
propagation case-analysed: a `NaN` operand gives `NaN`; `gain/0 = +inf` for a
positive gain gives `100 - 100/inf = 100`; `0/0` is `NaN`. -/
def rsiOf (g l : Option ℚ) : Option ℚ :=
  match g, l with
  | some gv, some lv =>
      if lv = 0 then (if gv = 0 then none else some 100)
      else some (100 - 100 / (1 + gv / lv))
  | _, _ => none

theorem diffList_length (xs : List ℚ) : (diffList xs).length = xs.length := by
  cases xs with
  | nil => rfl
  | cons x t =>
    simp [diffList, List.length_zip]

theorem rollingMean_length (w : ℕ) (xs : List ℚ) :
    (rollingMean w xs).length = xs.length := by
  simp [rollingMean]

theorem rollingMean_all_none (w : ℕ) (xs : List ℚ) (h : xs.length < w) :
    ∀ y ∈ rollingMean w xs, y = none := by
  intro y hy
  simp only [rollingMean, List.mem_map, List.mem_range] at hy
  obtain ⟨i, hi, rfl⟩ := hy
  rw [if_neg]
  omega

theorem zipWith_rsiOf_none (l1 l2 : List (Option ℚ)) (h : ∀ x ∈ l1, x = none) :
    ∀ y ∈ List.zipWith rsiOf l1 l2, y = none := by
  induction l1 generalizing l2 with
  | nil => simp
  | cons a t ih =>
    cases l2 with
    | nil => simp
    | cons b t2 =>
      intro y hy
      simp only [List.zipWith, List.mem_cons] at hy
      rcases hy with rfl | hy
      · have ha : a = none := h a (List.mem_cons_self a t)
        subst ha
        cases b <;> rfl
      · exact ih t2 (fun x hx => h x (List.mem_cons_of_mem a hx)) y hy

end Pandas

namespace RealtimeAiBackend

/-- The function `calculate_rsi` from `realtime_ai_backend.py` lines 134-141 (pandas
version, identical in `complete_ai_backend.py` lines 338-344): Wilder-style
rolling means of gains and losses, `100 - 100/(1+rs)`, returning the last
entry of the series if the series is nonempty and `50.0` otherwise.  The
result is `Option ℚ` because the last entry is the float `NaN` (`none`)
whenever the rolling window is not full there. -/
def calculate_rsi (prices : List ℚ) (period : ℕ := 14) : Option ℚ :=
  let delta := Pandas.diffList prices
  let gain := Pandas.rollingMean period (delta.map Pandas.whereGain)
  let loss := Pandas.rollingMean period (delta.map Pandas.whereLoss)
  let rsi := List.zipWith Pandas.rsiOf gain loss
  rsi.getLast?.getD (some 50)

/-- The function `calculate_macd` from `realtime_ai_backend.py` lines 143-149: fast and
slow exponential means, their difference, and the signal line; returns the
last entries (`0.0` for an empty series). -/
def calculate_macd (prices : List ℚ) (fast : ℚ := 12) (slow : ℚ := 26)
    (signal : ℚ := 9) : ℚ × ℚ :=
  let macd := List.zipWith (fun a b => a - b)
    (Pandas.ewmMean fast prices) (Pandas.ewmMean slow prices)
  let signal_line := Pandas.ewmMean signal macd
  (macd.getLastD 0, signal_line.getLastD 0)

/-- On a nonempty price series shorter than the period, the pandas
`calculate_rsi` returns `NaN` (`none`): every rolling window is unfilled. -/
theorem getD_getLast_all_none (l : List (Option ℚ)) (hne : l ≠ [])
    (hall : ∀ x ∈ l, x = none) : l.getLast?.getD (some 50) = none := by
  rw [List.getLast?_eq_getLast l hne]
  exact hall _ (List.getLast_mem hne)

theorem calculate_rsi_short_nan (prices : List ℚ) (period : ℕ)
    (hne : prices ≠ []) (h : prices.length < period) :
    calculate_rsi prices period = none := by
  show (List.zipWith Pandas.rsiOf
    (Pandas.rollingMean period ((Pandas.diffList prices).map Pandas.whereGain))
    (Pandas.rollingMean period
      ((Pandas.diffList prices).map Pandas.whereLoss))).getLast?.getD (some 50) = none
  have hglen : (Pandas.rollingMean period
      ((Pandas.diffList prices).map Pandas.whereGain)).length = prices.length := by
    rw [Pandas.rollingMean_length, List.length_map, Pandas.diffList_length]
  have hllen : (Pandas.rollingMean period
      ((Pandas.diffList prices).map Pandas.whereLoss)).length = prices.length := by
    rw [Pandas.rollingMean_length, List.length_map, Pandas.diffList_length]
  have hgnone : ∀ y ∈ Pandas.rollingMean period
      ((Pandas.diffList prices).map Pandas.whereGain), y = none := by
    apply Pandas.rollingMean_all_none
    rw [List.length_map, Pandas.diffList_length]; exact h
  apply getD_getLast_all_none
  · intro hempty
    have := congrArg List.length hempty
    rw [List.length_zipWith, hglen, hllen, min_self] at this
    exact hne (List.length_eq_zero.mp this)
  · exact Pandas.zipWith_rsiOf_none _ _ hgnone

/-- On an empty price series the pandas `calculate_rsi` returns `50.0`. -/
theorem calculate_rsi_nil : calculate_rsi [] = some 50 := rfl

end RealtimeAiBackend

/-- C9 counterexample: the pandas-based `calculate_rsi` of
`realtime_ai_backend.py`, applied to the one-element price list `[100]`
(fewer than the default period 14), returns the float `NaN` (`none`), not the
neutral value `50.0`. -/
theorem realtime_rsi_short_is_nan_not_fifty :
    [(100:ℚ)].length < 14 ∧
    RealtimeAiBackend.calculate_rsi [(100:ℚ)] = none ∧
    (none : Option ℚ) ≠ some 50 :=
  ⟨by decide, rfl, by decide⟩

/-- C9 amended: the list-based `calculate_rsi` (`ai_trading_backend.py`)
returns exactly the neutral `50.0` for every price list shorter than the
period and cannot raise; the pandas-based `calculate_rsi`
(`realtime_ai_backend.py`) returns `50.0` only for an empty price list and
returns `NaN` for a nonempty list shorter than the period — in both variants a
silent default at the public interface rather than an explicit
insufficient-history error. -/
theorem rsi_insufficient_history_silent_defaults (prices : List ℚ) (period : ℕ)
    (h : prices.length < period) (xs : List ℚ) (hne : xs ≠ [])
    (hxs : xs.length < 14) :
    AiTradingBackend.calculate_rsi prices period = 50 ∧
    RealtimeAiBackend.calculate_rsi xs = none ∧
    RealtimeAiBackend.calculate_rsi [] = some 50 := by
  refine ⟨?_, RealtimeAiBackend.calculate_rsi_short_nan xs 14 hne hxs, rfl⟩
  unfold AiTradingBackend.calculate_rsi
  rw [if_pos h]

/-- Witness for `rsi_insufficient_history_silent_defaults` at the two-element
list `[1, 2]` with period `14` and the singleton `[100]`. -/
theorem rsi_insufficient_history_silent_defaults_witness :
    AiTradingBackend.calculate_rsi [(1:ℚ), 2] 14 = 50 ∧
    RealtimeAiBackend.calculate_rsi [(100:ℚ)] = none ∧
    RealtimeAiBackend.calculate_rsi [] = some 50 :=
  rsi_insufficient_history_silent_defaults [1, 2] 14 (by decide) [100]
    (by decide) (by decide)

namespace EnhancedBackend

/-- The pydantic `MarketPrice` model of `enhanced_ai_trading_backend.py`
(identical fields in `realtime_ai_backend.py` / `complete_ai_backend.py`); the
`datetime` timestamp is omitted as no claim mentions it. -/
structure MarketPrice where
  symbol : String
  price : ℚ
  change : ℚ
  change_percent : ℚ
  volume : Option ℕ
  source : String
deriving DecidableEq

/-- The pydantic `TechnicalIndicators` model of
`enhanced_ai_trading_backend.py` (timestamp omitted). -/
structure TechnicalIndicators where
  symbol : String
  rsi : ℚ
  macd : ℚ
  macd_signal : ℚ
  sma_20 : ℚ
  sma_50 : ℚ
deriving DecidableEq

/-- The pydantic `TradeSignal` model (timestamp omitted).  `action` is a
Python string, in the source only ever `"buy"` or `"sell"`. -/
structure TradeSignal where
  symbol : String
  action : String
  confidence : ℚ
  price : ℚ
  reasoning : String
deriving DecidableEq

/-- The `base_prices` dictionary lookup with default `100.0`
(`enhanced_ai_trading_backend.py` lines 195-206). -/
def base_prices (symbol : String) : ℚ :=
  if symbol = "AAPL" then 1823/10
  else if symbol = "GOOGL" then 24205/10
  else if symbol = "MSFT" then 3318/10
  else if symbol = "TSLA" then 2485/10
  else if symbol = "AMZN" then 31802/10
  else if symbol = "NVDA" then 8753/10
  else if symbol = "META" then 4856/10
  else 100

/-- The fallback `get_simulated_price` (lines 194-221): a price fabricated from the base
price and a `random.uniform(-0.05, 0.05)` draw (`variation`) plus a
`random.randint` volume draw, tagged `source="simulated"`. -/
def get_simulated_price (symbol : String) (variation : ℚ) (volume : ℕ) :
    MarketPrice :=
  let base_price := base_prices symbol
  let current_price := base_price * (1 + variation)
  let change := current_price - base_price
  let change_percent := change / base_price * 100
  { symbol := symbol, price := round2 current_price, change := round2 change,
    change_percent := round2 change_percent, volume := some volume,
    source := "simulated" }

/-- The chain `get_market_price` (lines 223-237): Alpha Vantage, then Yahoo Finance,
then the simulated fallback.  The two upstream fetchers return
`Optional[MarketPrice]` in the source (each returns `None` on any upstream
error), so their outcomes are the `Option` inputs here. -/
def get_market_price (symbol : String) (alpha_vantage yahoo : Option MarketPrice)
    (variation : ℚ) (volume : ℕ) : MarketPrice :=
  match alpha_vantage with
  | some price => price
  | none =>
    match yahoo with
    | some price => price
    | none => get_simulated_price symbol variation volume

/-- The scoring loop of `generate_ai_signal_with_analysis` (lines 298-332):
accumulated `(buy_score, sell_score, reasoning_factors)` from the RSI, MACD,
momentum and moving-average checks. -/
def signalScores (price_data : MarketPrice) (tech : TechnicalIndicators) :
    ℕ × ℕ × List String :=
  let s0 : ℕ × ℕ × List String := (0, 0, [])
  let s1 :=
    if tech.rsi < 30 then (s0.1 + 2, s0.2.1, s0.2.2 ++ ["RSI oversold (bullish)"])
    else if tech.rsi > 70 then (s0.1, s0.2.1 + 2, s0.2.2 ++ ["RSI overbought (bearish)"])
    else s0
  let s2 :=
    if tech.macd > tech.macd_signal then (s1.1 + 1, s1.2.1, s1.2.2 ++ ["MACD bullish crossover"])
    else (s1.1, s1.2.1 + 1, s1.2.2 ++ ["MACD bearish crossover"])
  let s3 :=
    if price_data.change_percent > 2 then (s2.1 + 1, s2.2.1, s2.2.2 ++ ["Strong positive momentum"])
    else if price_data.change_percent < -2 then (s2.1, s2.2.1 + 1, s2.2.2 ++ ["Strong negative momentum"])
    else s2
  if price_data.price > tech.sma_20 ∧ tech.sma_20 > tech.sma_50 then
    (s3.1 + 1, s3.2.1, s3.2.2 ++ ["Price above rising MA"])
  else if price_data.price < tech.sma_20 ∧ tech.sma_20 < tech.sma_50 then
    (s3.1, s3.2.1 + 1, s3.2.2 ++ ["Price below falling MA"])
  else s3

/-- The decision engine `generate_ai_signal_with_analysis` (lines 294-355; the tie branch of
`complete_ai_backend.py` lines 429-439 is identical).  `tieChoice` is the
`random.choice(["buy", "sell"])` draw taken when the scores tie: `true`
selects `"buy"`. -/
def generate_ai_signal_with_analysis (symbol : String) (price_data : MarketPrice)
    (tech : TechnicalIndicators) (tieChoice : Bool) : TradeSignal :=
  let scores := signalScores price_data tech
  let buy_score := scores.1
  let sell_score := scores.2.1
  let acf :=
    if buy_score > sell_score then
      ("buy", min (95/100 : ℚ) (6/10 + (buy_score : ℚ) * (1/10)), scores.2.2)
    else if sell_score > buy_score then
      ("sell", min (95/100 : ℚ) (6/10 + (sell_score : ℚ) * (1/10)), scores.2.2)
    else
      (if tieChoice then "buy" else "sell", (1/2 : ℚ), scores.2.2 ++ ["Mixed signals"])
  let reasoning :=
    if acf.2.2 = [] then "Technical analysis" else String.intercalate "; " acf.2.2
  { symbol := symbol, action := acf.1, confidence := acf.2.1,
    price := price_data.price, reasoning := reasoning }

/-- Concrete quote giving a tied score: strong negative momentum (+1 sell). -/
def tiePrice : MarketPrice :=
  { symbol := "AAPL", price := 100, change := -3, change_percent := -3,
    volume := some 1000000, source := "yahoo_finance" }

/-- Concrete indicators giving a tied score: MACD above signal (+1 buy),
neutral RSI and flat moving averages. -/
def tieIndicators : TechnicalIndicators :=
  { symbol := "AAPL", rsi := 50, macd := 1, macd_signal := 0,
    sma_20 := 100, sma_50 := 100 }

end EnhancedBackend

/-- C1: at a concrete input where the accumulated buy score equals the sell
score (both 1), `generate_ai_signal_with_analysis` resolves the tie by the
`random.choice(["buy", "sell"])` draw — the action is `"buy"` or `"sell"`
according to the draw, with confidence `0.5`, and is never `"hold"`. -/
theorem tied_scores_resolve_randomly_never_hold :
    (EnhancedBackend.signalScores EnhancedBackend.tiePrice EnhancedBackend.tieIndicators).1 =
      (EnhancedBackend.signalScores EnhancedBackend.tiePrice EnhancedBackend.tieIndicators).2.1 ∧
    (EnhancedBackend.generate_ai_signal_with_analysis "AAPL" EnhancedBackend.tiePrice
      EnhancedBackend.tieIndicators true).action = "buy" ∧
    (EnhancedBackend.generate_ai_signal_with_analysis "AAPL" EnhancedBackend.tiePrice
      EnhancedBackend.tieIndicators false).action = "sell" ∧
    (∀ r : Bool, (EnhancedBackend.generate_ai_signal_with_analysis "AAPL"
      EnhancedBackend.tiePrice EnhancedBackend.tieIndicators r).action ≠ "hold") ∧
    (∀ r : Bool, (EnhancedBackend.generate_ai_signal_with_analysis "AAPL"
      EnhancedBackend.tiePrice EnhancedBackend.tieIndicators r).confidence = 1/2) := by
  have hscores : EnhancedBackend.signalScores EnhancedBackend.tiePrice
      EnhancedBackend.tieIndicators =
      (1, 1, ["MACD bullish crossover", "Strong negative momentum"]) := by
    norm_num [EnhancedBackend.signalScores, EnhancedBackend.tiePrice,
      EnhancedBackend.tieIndicators]
  have haction : ∀ r : Bool, (EnhancedBackend.generate_ai_signal_with_analysis "AAPL"
      EnhancedBackend.tiePrice EnhancedBackend.tieIndicators r).action =
      if r then "buy" else "sell" := by
    intro r
    simp [EnhancedBackend.generate_ai_signal_with_analysis, hscores]
  have hconf : ∀ r : Bool, (EnhancedBackend.generate_ai_signal_with_analysis "AAPL"
      EnhancedBackend.tiePrice EnhancedBackend.tieIndicators r).confidence = 1/2 := by
    intro r
    simp [EnhancedBackend.generate_ai_signal_with_analysis, hscores]
  refine ⟨by rw [hscores], by rw [haction]; rfl, by rw [haction]; rfl, ?_, hconf⟩
  intro r
  rw [haction]
  cases r <;> simp

namespace RealtimeAiBackend

/-- The per-symbol `price_cache` entry `{'data': ..., 'timestamp': time.time()}`
(`realtime_ai_backend.py` lines 183-186; same shape in
`complete_ai_backend.py`).  The pydantic `MarketPrice` models of the two
backends are field-for-field identical, so `EnhancedBackend.MarketPrice` is
reused. -/
structure CacheEntry where
  data : EnhancedBackend.MarketPrice
  timestamp : ℚ
deriving DecidableEq

/-- The constant `CACHE_DURATION = 10` (`realtime_ai_backend.py` line 129 and
`complete_ai_backend.py` line 166). -/
def CACHE_DURATION : ℚ := 10

/-- What `get_yahoo_finance_data` reads from a successful
`ticker.history(period="2d")` with at least two rows: the last two closes and
the last volume.  A failed fetch — an exception or fewer than two rows — is
`none`. -/
structure FetchData where
  current : ℚ
  previous : ℚ
  volume : Option ℕ
deriving DecidableEq

/-- The per-symbol cache cell together with a count of upstream fetches
issued, used to state the single-fetch property. -/
structure CacheState where
  cache : Option CacheEntry
  fetches : ℕ
deriving DecidableEq

/-- The fetch-and-store tail of `get_yahoo_finance_data` (lines 161-194),
reached on a cache miss: issue the upstream fetch; on success build the
rounded quote, store it with the current time, and return it; on failure
return `None` and leave the cache cell unchanged. -/
def fetchAndStore (symbol : String) (st : CacheState) (now : ℚ)
    (fetch : Option FetchData) : Option EnhancedBackend.MarketPrice × CacheState :=
  match fetch with
  | some d =>
    let change := d.current - d.previous
    let change_percent := change / d.previous * 100
    let market_price : EnhancedBackend.MarketPrice :=
      { symbol := symbol, price := round2 d.current, change := round2 change,
        change_percent := round2 change_percent, volume := d.volume,
        source := "yahoo_finance" }
    (some market_price,
      { cache := some ⟨market_price, now⟩, fetches := st.fetches + 1 })
  | none => (none, { st with fetches := st.fetches + 1 })

/-- The cache front end `get_yahoo_finance_data` (lines 151-194) for one symbol, as an atomic
state transition: serve the cached quote while it is younger than
`CACHE_DURATION`, otherwise fetch.  The transition is atomic because the
source body contains no `await`, so under the asyncio event loop no other
task can interleave between the cache check, the fetch and the store. -/
def get_yahoo_finance_data (symbol : String) (st : CacheState) (now : ℚ)
    (fetch : Option FetchData) : Option EnhancedBackend.MarketPrice × CacheState :=
  match st.cache with
  | some cached_data =>
    if now - cached_data.timestamp < CACHE_DURATION then
      (some cached_data.data, st)
    else
      fetchAndStore symbol st now fetch
  | none => fetchAndStore symbol st now fetch

end RealtimeAiBackend

/-- A quote sitting in the cache, used as the stale entry in the C2
counterexample. -/
def staleQuote : EnhancedBackend.MarketPrice :=
  { symbol := "AAPL", price := 180, change := 1, change_percent := 1/2,
    volume := some 5000, source := "yahoo_finance" }

/-- C2 counterexample: when every upstream source fails, the enhanced
backend's `get_market_price` returns a fabricated quote tagged
`source = "simulated"` instead of an explicit no-data result; and the
realtime backend's `get_yahoo_finance_data`, holding a 100-second-old (stale)
cache entry, returns `None` rather than serving that entry annotated stale. -/
theorem upstream_failure_fabricates_and_ignores_stale :
    (EnhancedBackend.get_market_price "AAPL" none none 0 1000000).source = "simulated" ∧
    (RealtimeAiBackend.get_yahoo_finance_data "AAPL" ⟨some ⟨staleQuote, 0⟩, 0⟩ 100 none).1 =
      none := by
  refine ⟨rfl, ?_⟩
  norm_num [RealtimeAiBackend.get_yahoo_finance_data,
    RealtimeAiBackend.fetchAndStore, RealtimeAiBackend.CACHE_DURATION]

/-- C2 amended: on upstream failure no stale-annotated quote and no explicit
no-data result are produced by the enhanced backend — `get_market_price`
falls back to the fabricated simulated quote (`source = "simulated"`) — while
the realtime backend's `get_yahoo_finance_data` returns `None` on a failed
fetch even when an expired cache entry for the symbol exists (the quote model
has no stale annotation at all; expired entries are never served). -/
theorem upstream_failure_policy (symbol : String) (v : ℚ) (vol : ℕ)
    (e : RealtimeAiBackend.CacheEntry) (n : ℕ) (now : ℚ)
    (hstale : ¬ now - e.timestamp < RealtimeAiBackend.CACHE_DURATION) :
    EnhancedBackend.get_market_price symbol none none v vol =
      EnhancedBackend.get_simulated_price symbol v vol ∧
    (EnhancedBackend.get_market_price symbol none none v vol).source = "simulated" ∧
    (RealtimeAiBackend.get_yahoo_finance_data symbol ⟨some e, n⟩ now none).1 = none := by
  refine ⟨rfl, rfl, ?_⟩
  simp [RealtimeAiBackend.get_yahoo_finance_data, hstale,
    RealtimeAiBackend.fetchAndStore]

/-- Witness for `upstream_failure_policy` with a 100-second-old cache
entry. -/
theorem upstream_failure_policy_witness :
    ¬ ((100:ℚ) - 0 < RealtimeAiBackend.CACHE_DURATION) ∧
    (EnhancedBackend.get_market_price "AAPL" none none 0 1000000 =
      EnhancedBackend.get_simulated_price "AAPL" 0 1000000 ∧
    (EnhancedBackend.get_market_price "AAPL" none none 0 1000000).source = "simulated" ∧
    (RealtimeAiBackend.get_yahoo_finance_data "AAPL" ⟨some ⟨staleQuote, 0⟩, 0⟩ 100 none).1 =
      none) :=
  ⟨by norm_num [RealtimeAiBackend.CACHE_DURATION],
    upstream_failure_policy "AAPL" 0 1000000 ⟨staleQuote, 0⟩ 0 100
      (by norm_num [RealtimeAiBackend.CACHE_DURATION])⟩

/-- C4: starting from a cold (absent or expired) cache cell, a `get` whose
upstream fetch succeeds stores the quote, and any two further `get` calls
issued within `CACHE_DURATION = 10` seconds of that store return exactly the
stored quote without issuing any upstream fetch — one upstream fetch in
total, identical results for all callers.  Concurrent callers are covered
because each call is atomic (the source body has no `await`), so any
interleaving is a serialization of these calls. -/
theorem cache_serves_single_fetch_within_ttl (symbol : String)
    (c0 : Option RealtimeAiBackend.CacheEntry) (n0 : ℕ) (t0 : ℚ)
    (hmiss : ∀ e, c0 = some e → ¬ t0 - e.timestamp < RealtimeAiBackend.CACHE_DURATION)
    (d : RealtimeAiBackend.FetchData) (t1 t2 : ℚ)
    (h1 : t1 - t0 < RealtimeAiBackend.CACHE_DURATION)
    (h2 : t2 - t0 < RealtimeAiBackend.CACHE_DURATION)
    (f1 f2 : Option RealtimeAiBackend.FetchData) :
    ∃ q : EnhancedBackend.MarketPrice,
      (RealtimeAiBackend.get_yahoo_finance_data symbol ⟨c0, n0⟩ t0 (some d)).1 = some q ∧
      (RealtimeAiBackend.get_yahoo_finance_data symbol
        (RealtimeAiBackend.get_yahoo_finance_data symbol ⟨c0, n0⟩ t0 (some d)).2 t1 f1).1 =
        some q ∧
      (RealtimeAiBackend.get_yahoo_finance_data symbol
        (RealtimeAiBackend.get_yahoo_finance_data symbol
          (RealtimeAiBackend.get_yahoo_finance_data symbol ⟨c0, n0⟩ t0 (some d)).2 t1 f1).2
        t2 f2).1 = some q ∧
      (RealtimeAiBackend.get_yahoo_finance_data symbol
        (RealtimeAiBackend.get_yahoo_finance_data symbol
          (RealtimeAiBackend.get_yahoo_finance_data symbol ⟨c0, n0⟩ t0 (some d)).2 t1 f1).2
        t2 f2).2.fetches = n0 + 1 := by
  have hstep : RealtimeAiBackend.get_yahoo_finance_data symbol ⟨c0, n0⟩ t0 (some d) =
      RealtimeAiBackend.fetchAndStore symbol ⟨c0, n0⟩ t0 (some d) := by
    cases c0 with
    | none => rfl
    | some e =>
      simp [RealtimeAiBackend.get_yahoo_finance_data, hmiss e rfl]
  rw [hstep]
  simp only [RealtimeAiBackend.fetchAndStore]
  refine ⟨_, rfl, ?_⟩
  simp [RealtimeAiBackend.get_yahoo_finance_data, h1, h2]

/-- Witness for `cache_serves_single_fetch_within_ttl`: a cold cache at time
0, a successful fetch of closes 2 (previous 1), and repeat calls at times 3
and 5. -/
theorem cache_serves_single_fetch_witness :
    ((3:ℚ) - 0 < RealtimeAiBackend.CACHE_DURATION) ∧
    ((5:ℚ) - 0 < RealtimeAiBackend.CACHE_DURATION) ∧
    (∃ q : EnhancedBackend.MarketPrice,
      (RealtimeAiBackend.get_yahoo_finance_data "AAPL" ⟨none, 0⟩ 0 (some ⟨2, 1, some 5⟩)).1 =
        some q ∧
      (RealtimeAiBackend.get_yahoo_finance_data "AAPL"
        (RealtimeAiBackend.get_yahoo_finance_data "AAPL" ⟨none, 0⟩ 0
          (some ⟨2, 1, some 5⟩)).2 3 none).1 = some q ∧
      (RealtimeAiBackend.get_yahoo_finance_data "AAPL"
        (RealtimeAiBackend.get_yahoo_finance_data "AAPL"
          (RealtimeAiBackend.get_yahoo_finance_data "AAPL" ⟨none, 0⟩ 0
            (some ⟨2, 1, some 5⟩)).2 3 none).2 5 none).1 = some q ∧
      (RealtimeAiBackend.get_yahoo_finance_data "AAPL"
        (RealtimeAiBackend.get_yahoo_finance_data "AAPL"
          (RealtimeAiBackend.get_yahoo_finance_data "AAPL" ⟨none, 0⟩ 0
            (some ⟨2, 1, some 5⟩)).2 3 none).2 5 none).2.fetches = 0 + 1) :=
  ⟨by norm_num [RealtimeAiBackend.CACHE_DURATION],
   by norm_num [RealtimeAiBackend.CACHE_DURATION],
   cache_serves_single_fetch_within_ttl "AAPL" none 0 0
     (fun e he => by simp at he) ⟨2, 1, some 5⟩ 3 5
     (by norm_num [RealtimeAiBackend.CACHE_DURATION])
     (by norm_num [RealtimeAiBackend.CACHE_DURATION]) none none⟩

namespace RealtimeAiBackend

/-- The pydantic `TechnicalIndicators` model of `realtime_ai_backend.py`
lines 95-101 (timestamp omitted; note: no `macd_signal` field).  Fields are
`Option ℚ` because the real-data branch rounds pandas values that are the
float `NaN` when a rolling window is unfilled. -/
structure TechnicalIndicators where
  symbol : String
  rsi : Option ℚ
  macd : Option ℚ
  sma_20 : Option ℚ
  sma_50 : Option ℚ
deriving DecidableEq

/-- The four `random.uniform` draws of the simulated-indicator fallback
(`realtime_ai_backend.py` lines 220-227). -/
structure SimDraw where
  rsi : ℚ
  macd : ℚ
  sma_20 : ℚ
  sma_50 : ℚ
deriving DecidableEq

/-- The function `get_technical_indicators` (`realtime_ai_backend.py` lines 196-238):
with at least 50 closes, compute RSI, MACD and the two SMAs from the pandas
pipeline; with fewer, fall back to indicators fabricated from the
`random.uniform` draws.  (The `except` branch returns the same fabricated
record; the embedded computation is total, so only the length test decides
the branch.) -/
def get_technical_indicators (symbol : String) (hist : List ℚ) (draw : SimDraw) :
    TechnicalIndicators :=
  if 50 ≤ hist.length then
    { symbol := symbol,
      rsi := (calculate_rsi hist).map round2,
      macd := some (round4 (calculate_macd hist).1),
      sma_20 := ((Pandas.rollingMean 20 hist).getLastD none).map round2,
      sma_50 := ((Pandas.rollingMean 50 hist).getLastD none).map round2 }
  else
    { symbol := symbol, rsi := some draw.rsi, macd := some draw.macd,
      sma_20 := some draw.sma_20, sma_50 := some draw.sma_50 }

end RealtimeAiBackend

namespace BackendApp

/-- The indicator periods from `backend/app/core/config.py` lines 21-26. -/
def rsi_period : ℕ := 14

def rsi_overbought : ℚ := 70

def rsi_oversold : ℚ := 30

def macd_fast : ℚ := 12

def macd_slow : ℚ := 26

def macd_signal : ℚ := 9

/-- Python truthiness-guarded map, for expressions of the shape
`f(x) if x else None`: a missing value or the falsy `0.0` yields `None`. -/
def pyTruthyMap (f : ℚ → ℚ) (x : Option ℚ) : Option ℚ :=
  match x with
  | some v => if v = 0 then none else some (f v)
  | none => none

/-- Python truthiness-guarded test, for expressions of the shape
`p(x) if x else False`. -/
def pyTruthyTest (p : ℚ → Bool) (x : Option ℚ) : Bool :=
  match x with
  | some v => if v = 0 then false else p v
  | none => false

/-- Doubly truthiness-guarded test, for `a > b if a and b else False`. -/
def pyTruthyTest2 (m s : Option ℚ) : Bool :=
  match m, s with
  | some a, some b => if a = 0 ∨ b = 0 then false else decide (a > b)
  | _, _ => false

/-- The last `n` entries of a list (`Series.tail(n)` / a `[-n:]` slice). -/
def lastN (n : ℕ) (l : List ℚ) : List ℚ := l.drop (l.length - n)

/-- The `"rsi"` entry of the `MarketDataService.get_technical_indicators`
response. -/
structure RsiBlock where
  current : Option ℚ
  overbought : Bool
  oversold : Bool
  history : List ℚ
deriving DecidableEq

/-- The `"macd"` entry of the response. -/
structure MacdBlock where
  macd : Option ℚ
  signal : Option ℚ
  histogram : Option ℚ
  bullish : Bool
deriving DecidableEq

/-- The `"moving_averages"` entry of the response. -/
structure MovingAveragesBlock where
  sma_20 : Option ℚ
  sma_50 : Option ℚ
  ema_12 : Option ℚ
  ema_26 : Option ℚ
deriving DecidableEq

/-- The `"volume"` entry of the response. -/
structure VolumeBlock where
  current : ℚ
  average : ℤ
  volume_spike : Bool
deriving DecidableEq

/-- The response dict of `MarketDataService.get_technical_indicators`
(`backend/app/services/market_data.py` lines 125-155).  The
`"bollinger_bands"` entry involves `rolling(20).std()`, whose square root
leaves the rational model; no claim mentions it and it is not embedded. -/
structure IndicatorsResponse where
  symbol : String
  rsi : RsiBlock
  macd : MacdBlock
  moving_averages : MovingAveragesBlock
  volume : VolumeBlock
deriving DecidableEq

/-- The service method `MarketDataService.get_technical_indicators`
(`backend/app/services/market_data.py` lines 80-158) over the close and
volume columns of the fetched history: raises (`Except.error`) the explicit
insufficient-data exception when fewer than 50 rows are available, otherwise
computes the RSI / MACD / moving-average / volume blocks with the pandas
pipeline. -/
def MarketDataService.get_technical_indicators (symbol : String)
    (closes volumes : List ℚ) : Except String IndicatorsResponse :=
  if closes.length < 50 then
    .error "Insufficient data for indicators calculation"
  else
    let delta := Pandas.diffList closes
    let gain := Pandas.rollingMean rsi_period (delta.map Pandas.whereGain)
    let loss := Pandas.rollingMean rsi_period (delta.map Pandas.whereLoss)
    let rsi := List.zipWith Pandas.rsiOf gain loss
    let ema_12 := Pandas.ewmMean macd_fast closes
    let ema_26 := Pandas.ewmMean macd_slow closes
    let macd := List.zipWith (fun a b => a - b) ema_12 ema_26
    let macd_signal_l := Pandas.ewmMean macd_signal macd
    let macd_hist := List.zipWith (fun a b => a - b) macd macd_signal_l
    let sma_20 := Pandas.rollingMean 20 closes
    let sma_50 := Pandas.rollingMean 50 closes
    let volume_sma := Pandas.rollingMean 20 volumes
    let current_rsi := (rsi.filterMap id).getLast?
    let current_macd := macd.getLast?
    let current_macd_signal := macd_signal_l.getLast?
    let current_macd_hist := macd_hist.getLast?
    .ok
      { symbol := symbol,
        rsi :=
          { current := pyTruthyMap round2 current_rsi,
            overbought := pyTruthyTest (fun v => decide (v > rsi_overbought)) current_rsi,
            oversold := pyTruthyTest (fun v => decide (v < rsi_oversold)) current_rsi,
            history := (lastN 30 (rsi.filterMap id)).map round2 },
        macd :=
          { macd := pyTruthyMap round4 current_macd,
            signal := pyTruthyMap round4 current_macd_signal,
            histogram := pyTruthyMap round4 current_macd_hist,
            bullish := pyTruthyTest2 current_macd current_macd_signal },
        moving_averages :=
          { sma_20 := ((sma_20.filterMap id).getLast?).map round2,
            sma_50 := ((sma_50.filterMap id).getLast?).map round2,
            ema_12 := ema_12.getLast?.map round2,
            ema_26 := ema_26.getLast?.map round2 },
        volume :=
          { current := volumes.getLastD 0,
            average :=
              match (volume_sma.filterMap id).getLast? with
              | some v => ⌊v⌋
              | none => 0,
            volume_spike :=
              match (volume_sma.filterMap id).getLast? with
              | some v => decide (volumes.getLastD 0 > v * (3/2))
              | none => false } }

end BackendApp

/-- C3 counterexample: `get_technical_indicators` of `realtime_ai_backend.py`
on a one-bar history (far shorter than the required 50) returns a
`TechnicalIndicators` record fabricated from the `random.uniform` draws —
the result type has no insufficient-history variant at all. -/
theorem short_history_returns_fabricated_indicators :
    [(100:ℚ)].length < 50 ∧
    RealtimeAiBackend.get_technical_indicators "AAPL" [100] ⟨42, 1, 160, 150⟩ =
      { symbol := "AAPL", rsi := some 42, macd := some 1,
        sma_20 := some 160, sma_50 := some 150 } :=
  ⟨by decide, rfl⟩

/-- C3 amended: with a history window shorter than 50 bars,
`MarketDataService.get_technical_indicators` raises the explicit
`"Insufficient data for indicators calculation"` exception, while the
realtime backend's `get_technical_indicators` silently returns an indicator
record fabricated from `random.uniform` draws instead of an explicit
insufficient-history result. -/
theorem insufficient_history_explicit_or_fabricated (hist : List ℚ)
    (h : hist.length < 50) (symbol sym2 : String)
    (draw : RealtimeAiBackend.SimDraw) (closes volumes : List ℚ)
    (hc : closes.length < 50) :
    RealtimeAiBackend.get_technical_indicators symbol hist draw =
      { symbol := symbol, rsi := some draw.rsi, macd := some draw.macd,
        sma_20 := some draw.sma_20, sma_50 := some draw.sma_50 } ∧
    BackendApp.MarketDataService.get_technical_indicators sym2 closes volumes =
      .error "Insufficient data for indicators calculation" := by
  constructor
  · unfold RealtimeAiBackend.get_technical_indicators
    rw [if_neg (by omega)]
  · unfold BackendApp.MarketDataService.get_technical_indicators
    rw [if_pos hc]

/-- Witness for `insufficient_history_explicit_or_fabricated` on one-bar
histories. -/
theorem insufficient_history_explicit_or_fabricated_witness :
    RealtimeAiBackend.get_technical_indicators "AAPL" [(100:ℚ)] ⟨40, 0, 150, 140⟩ =
      { symbol := "AAPL", rsi := some 40, macd := some 0,
        sma_20 := some 150, sma_50 := some 140 } ∧
    BackendApp.MarketDataService.get_technical_indicators "MSFT" [(1:ℚ)] [(2:ℚ)] =
      .error "Insufficient data for indicators calculation" :=
  insufficient_history_explicit_or_fabricated [(100:ℚ)] (by decide) "AAPL" "MSFT"
    ⟨40, 0, 150, 140⟩ [(1:ℚ)] [(2:ℚ)] (by decide)

/-- Rounding to three decimals keeps the unit interval. -/
theorem round3_mem_unit (q : ℚ) (h0 : 0 ≤ q) (h1 : q ≤ 1) :
    0 ≤ round3 q ∧ round3 q ≤ 1 := by
  unfold round3
  rw [round_eq]
  have hlo : (0:ℤ) ≤ ⌊q * 1000 + 1 / 2⌋ := by
    apply Int.le_floor.mpr
    push_cast
    linarith
  have hhi : ⌊q * 1000 + 1 / 2⌋ < 1001 := by
    apply Int.floor_lt.mpr
    push_cast
    linarith
  constructor
  · positivity
  · rw [div_le_one (by norm_num)]
    have : ⌊q * 1000 + 1 / 2⌋ ≤ 1000 := by omega
    exact_mod_cast this

namespace BackendApp

/-- The slice of the `analyze_symbol` response dict that
`TradingAI._calculate_confidence` reads (`backend/app/ai/trading_ai.py`
lines 234-279): the RSI / MACD / volume flags of the indicators, the overall
trend, the news-sentiment score (`none` when `news_sentiment` is absent or
falsy) and the volatility (`none` when missing, defaulted to 20 by the
source's `.get("volatility", 20)`). -/
structure AnalysisInput where
  rsi_oversold : Bool
  rsi_overbought : Bool
  macd_bullish : Bool
  volume_spike : Bool
  overall_trend : Option String
  news_score : Option ℚ
  volatility : Option ℚ

/-- The method `TradingAI._calculate_confidence` (lines 234-279): sum the matched factor
weights, cap at `1.0`, scale by `0.7` when volatility exceeds 40 and by
`0.85` when it exceeds 25, clamp into `[0, 1]` and round to three
decimals. -/
def calculate_confidence (a : AnalysisInput) : ℚ :=
  let f1 : ℚ := if a.rsi_oversold || a.rsi_overbought then 3/10 else 0
  let f2 : ℚ := if a.macd_bullish then 2/10 else 0
  let f3 : ℚ := if a.volume_spike then 15/100 else 0
  let f4 : ℚ :=
    if a.overall_trend = some "bullish" ∨ a.overall_trend = some "bearish" then 2/10 else 0
  let f5 : ℚ :=
    match a.news_score with
    | some s => if |s| > 2/10 then 15/100 else 0
    | none => 0
  let base_confidence := min (f1 + f2 + f3 + f4 + f5) 1
  let volatility := a.volatility.getD 20
  let scaled :=
    if volatility > 40 then base_confidence * (7/10)
    else if volatility > 25 then base_confidence * (85/100)
    else base_confidence
  round3 (min (max scaled 0) 1)

end BackendApp

/-- C6: every confidence produced by `TradingAI._calculate_confidence` — the
volatility-scaled, clamped, rounded factor-weight sum — lies in `[0, 1]`; and
so does the confidence of every `TradeSignal` produced by
`generate_ai_signal_with_analysis`. -/
theorem confidence_always_in_unit_interval :
    (∀ a : BackendApp.AnalysisInput,
      0 ≤ BackendApp.calculate_confidence a ∧ BackendApp.calculate_confidence a ≤ 1) ∧
    (∀ (s : String) (px : EnhancedBackend.MarketPrice)
      (t : EnhancedBackend.TechnicalIndicators) (r : Bool),
      0 ≤ (EnhancedBackend.generate_ai_signal_with_analysis s px t r).confidence ∧
      (EnhancedBackend.generate_ai_signal_with_analysis s px t r).confidence ≤ 1) := by
  constructor
  · intro a
    unfold BackendApp.calculate_confidence
    apply round3_mem_unit
    · exact le_min (le_max_right _ _) zero_le_one
    · exact min_le_right _ _
  · intro s px t r
    dsimp only [EnhancedBackend.generate_ai_signal_with_analysis]
    split
    · constructor
      · exact le_min (by norm_num) (by positivity)
      · exact le_trans (min_le_left _ _) (by norm_num)
    · split
      · constructor
        · exact le_min (by norm_num) (by positivity)
        · exact le_trans (min_le_left _ _) (by norm_num)
      · norm_num

namespace ConnectionManager

/-- Outcome of one `await connection.send_text(message)`: success, a raised
exception, or a send that never completes.  No timeout wraps the `await` in
the source, so a non-completing send suspends the broadcasting coroutine
forever. -/
inductive SendOutcome
  | ok
  | err
  | hang
deriving DecidableEq

/-- The method `ConnectionManager.disconnect` (`backend/app/core/websocket.py` lines
22-25; identical in `realtime_ai_backend.py` lines 46-49): remove the
connection from `active_connections` if present.  Connections are modelled as
bare `ℕ` handles; `active_connections` is a Python list, hence a `List`,
and `list.remove` drops the first occurrence. -/
def disconnect (active_connections : List ℕ) (websocket : ℕ) : List ℕ :=
  if websocket ∈ active_connections then active_connections.erase websocket
  else active_connections

/-- The send loop of `ConnectionManager.broadcast` (lines 33-40): returns the
connections that received the message, the `disconnected` list accumulated
from raised sends, and whether the loop ran to completion (`false` when some
send hung, in which case the coroutine is suspended and nothing after the
hanging send happens). -/
def sendLoop (conns : List ℕ) (o : ℕ → SendOutcome) : List ℕ × List ℕ × Bool :=
  match conns with
  | [] => ([], [], true)
  | c :: rest =>
    match o c with
    | .ok => let r := sendLoop rest o; (c :: r.1, r.2.1, r.2.2)
    | .err => let r := sendLoop rest o; (r.1, c :: r.2.1, r.2.2)
    | .hang => ([], [], false)

/-- The method `ConnectionManager.broadcast` (lines 33-44): run the send loop, then — if
it completed — evict each connection whose send raised.  The result is
(connections that received the event, registry state afterwards); on a hung
send the eviction loop is never reached and the registry is unchanged. -/
def broadcast (active_connections : List ℕ) (o : ℕ → SendOutcome) :
    List ℕ × List ℕ :=
  let r := sendLoop active_connections o
  if r.2.2 then (r.1, List.foldl disconnect active_connections r.2.1)
  else (r.1, active_connections)

theorem sendLoop_no_hang (conns : List ℕ) (o : ℕ → SendOutcome)
    (h : ∀ c ∈ conns, o c ≠ .hang) :
    sendLoop conns o =
      (conns.filter (fun c => decide (o c = .ok)),
       conns.filter (fun c => decide (o c = .err)), true) := by
  induction conns with
  | nil => rfl
  | cons c rest ih =>
    have hrest := ih (fun x hx => h x (List.mem_cons_of_mem c hx))
    have hc := h c (List.mem_cons_self c rest)
    cases hoc : o c with
    | ok => simp [sendLoop, hoc, hrest, List.filter_cons]
    | err => simp [sendLoop, hoc, hrest, List.filter_cons]
    | hang => exact absurd hoc hc

theorem disconnect_cons_ne (c : ℕ) (l : List ℕ) (d : ℕ) (h : d ≠ c) :
    disconnect (c :: l) d = c :: disconnect l d := by
  unfold disconnect
  by_cases hd : d ∈ l
  · rw [if_pos (List.mem_cons_of_mem c hd), if_pos hd,
      List.erase_cons_tail]
    simp [beq_iff_eq]
    exact fun hcd => h hcd.symm
  · have : d ∉ c :: l := by
      intro hmem
      rcases List.mem_cons.mp hmem with rfl | hmem
      · exact h rfl
      · exact hd hmem
    rw [if_neg this, if_neg hd]

theorem foldl_disconnect_cons (c : ℕ) (l ds : List ℕ) (h : c ∉ ds) :
    List.foldl disconnect (c :: l) ds = c :: List.foldl disconnect l ds := by
  induction ds generalizing l with
  | nil => rfl
  | cons d ds ih =>
    have hdc : d ≠ c := fun hd => h (hd ▸ List.mem_cons_self d ds)
    rw [List.foldl_cons, List.foldl_cons, disconnect_cons_ne c l d hdc]
    exact ih (disconnect l d) (fun hc => h (List.mem_cons_of_mem d hc))

theorem foldl_disconnect_filter (conns : List ℕ) (o : ℕ → SendOutcome)
    (hnd : conns.Nodup) (hnohang : ∀ c ∈ conns, o c ≠ .hang) :
    List.foldl disconnect conns (conns.filter (fun c => decide (o c = .err))) =
      conns.filter (fun c => decide (o c = .ok)) := by
  induction conns with
  | nil => rfl
  | cons c rest ih =>
    have hc : c ∉ rest := (List.nodup_cons.mp hnd).1
    have hrest := ih (List.nodup_cons.mp hnd).2
      (fun x hx => hnohang x (List.mem_cons_of_mem c hx))
    cases hoc : o c with
    | ok =>
      have e1 : List.filter (fun x => decide (o x = SendOutcome.err)) (c :: rest) =
          List.filter (fun x => decide (o x = SendOutcome.err)) rest := by
        rw [List.filter_cons]
        simp [hoc]
      have e2 : List.filter (fun x => decide (o x = SendOutcome.ok)) (c :: rest) =
          c :: List.filter (fun x => decide (o x = SendOutcome.ok)) rest := by
        rw [List.filter_cons]
        simp [hoc]
      have hnotin : c ∉ rest.filter (fun x => decide (o x = SendOutcome.err)) :=
        fun hmem => hc (List.mem_of_mem_filter hmem)
      rw [e1, e2, foldl_disconnect_cons c rest _ hnotin, hrest]
    | err =>
      have e1 : List.filter (fun x => decide (o x = SendOutcome.err)) (c :: rest) =
          c :: List.filter (fun x => decide (o x = SendOutcome.err)) rest := by
        rw [List.filter_cons]
        simp [hoc]
      have e2 : List.filter (fun x => decide (o x = SendOutcome.ok)) (c :: rest) =
          List.filter (fun x => decide (o x = SendOutcome.ok)) rest := by
        rw [List.filter_cons]
        simp [hoc]
      have hdc : disconnect (c :: rest) c = rest := by
        unfold disconnect
        rw [if_pos (List.mem_cons_self c rest), List.erase_cons_head]
      rw [e1, e2, List.foldl_cons, hdc, hrest]
    | hang => exact absurd hoc (hnohang c (List.mem_cons_self c rest))

end ConnectionManager

/-- The outcome assignment of the C7 counterexample: subscriber 2's send
never completes (no timeout exists to interrupt it), the others succeed. -/
def hangAtTwo : ℕ → ConnectionManager.SendOutcome :=
  fun c => if c = 2 then .hang else .ok

/-- C7 counterexample: publishing to subscribers `[1, 2, 3]` where
subscriber 2's write exceeds any deadline (never completes): only subscriber
1 receives the event, subscriber 3 does not, and subscriber 2 is not evicted
— the registry still holds `[1, 2, 3]` for the next publish, because the
source wraps no timeout around `send_text` and the broadcast coroutine
suspends forever. -/
theorem hung_write_blocks_broadcast_and_evicts_nobody :
    ConnectionManager.broadcast [1, 2, 3] hangAtTwo = ([1], [1, 2, 3]) ∧
    3 ∉ (ConnectionManager.broadcast [1, 2, 3] hangAtTwo).1 ∧
    2 ∈ (ConnectionManager.broadcast [1, 2, 3] hangAtTwo).2 := by
  refine ⟨rfl, ?_, ?_⟩ <;> decide

/-- C7 amended: for a publish in which subscriber writes either succeed or
raise (none hangs — the no-timeout hang case is the counterexample), every
subscriber whose write succeeds receives the event, every subscriber whose
write raises is evicted, and the registry left for the next publish is
exactly the successful subscribers. -/
theorem broadcast_delivers_and_evicts_on_error (conns : List ℕ)
    (o : ℕ → ConnectionManager.SendOutcome) (hnd : conns.Nodup)
    (hnohang : ∀ c ∈ conns, o c ≠ .hang) :
    ConnectionManager.broadcast conns o =
      (conns.filter (fun c => decide (o c = .ok)),
       conns.filter (fun c => decide (o c = .ok))) := by
  unfold ConnectionManager.broadcast
  rw [ConnectionManager.sendLoop_no_hang conns o hnohang]
  dsimp only
  rw [if_pos rfl, ConnectionManager.foldl_disconnect_filter conns o hnd hnohang]

/-- The outcome assignment of the C7 witness: subscriber 2's send raises. -/
def errAtTwo : ℕ → ConnectionManager.SendOutcome :=
  fun c => if c = 2 then .err else .ok

/-- Witness for `broadcast_delivers_and_evicts_on_error`: subscribers
`[1, 2, 3]`, subscriber 2's write raises: 1 and 3 receive the event and the
registry for the next publish is exactly `[1, 3]`. -/
theorem broadcast_delivers_and_evicts_witness :
    ([1, 2, 3] : List ℕ).Nodup ∧
    ConnectionManager.broadcast [1, 2, 3] errAtTwo =
      ([1, 2, 3].filter (fun c => decide (errAtTwo c = .ok)),
       [1, 2, 3].filter (fun c => decide (errAtTwo c = .ok))) ∧
    [1, 2, 3].filter (fun c => decide (errAtTwo c = .ok)) = [1, 3] :=
  ⟨by decide,
   broadcast_delivers_and_evicts_on_error [1, 2, 3] errAtTwo (by decide) (by decide),
   by decide⟩

/-- C10 counterexample: on a registry holding the same connection handle
twice, `disconnect` applied twice removes both copies while `disconnect`
applied once leaves one — the two results differ, so `disconnect` is not
idempotent over every registry state. -/
theorem double_disconnect_differs_on_duplicate_registry :
    ConnectionManager.disconnect (ConnectionManager.disconnect [0, 0] 0) 0 ≠
      ConnectionManager.disconnect [0, 0] 0 := by
  decide

/-- C10 amended: disconnecting a connection that is not in the registry
leaves it unchanged (for every registry state), and on every duplicate-free
registry state — the states reachable when each accepted connection is a
fresh handle — `disconnect` is idempotent; a registry holding the same handle
twice loses one copy per call. -/
theorem disconnect_noop_when_absent_and_idempotent_on_nodup (l : List ℕ) (c : ℕ)
    (hnd : l.Nodup) :
    (c ∉ l → ConnectionManager.disconnect l c = l) ∧
    ConnectionManager.disconnect (ConnectionManager.disconnect l c) c =
      ConnectionManager.disconnect l c := by
  constructor
  · intro hc
    unfold ConnectionManager.disconnect
    rw [if_neg hc]
  · by_cases hc : c ∈ l
    · have h1 : ConnectionManager.disconnect l c = l.erase c := by
        unfold ConnectionManager.disconnect
        rw [if_pos hc]
      rw [h1]
      unfold ConnectionManager.disconnect
      rw [if_neg (hnd.not_mem_erase)]
    · have h1 : ConnectionManager.disconnect l c = l := by
        unfold ConnectionManager.disconnect
        rw [if_neg hc]
      rw [h1, h1]

/-- Witness for `disconnect_noop_when_absent_and_idempotent_on_nodup` on the
registry `[5, 7]` and connection `5`. -/
theorem disconnect_idempotent_witness :
    ([5, 7] : List ℕ).Nodup ∧
    ((5 ∉ ([5, 7] : List ℕ) → ConnectionManager.disconnect [5, 7] 5 = [5, 7]) ∧
     ConnectionManager.disconnect (ConnectionManager.disconnect [5, 7] 5) 5 =
       ConnectionManager.disconnect [5, 7] 5) :=
  ⟨by decide, disconnect_noop_when_absent_and_idempotent_on_nodup [5, 7] 5 (by decide)⟩

namespace WsEndpoint

/-- Server replies of the websocket endpoint
(`backend/app/api/endpoints/websocket.py` lines 27-44). -/
inductive Reply
  | subscription_confirmed (symbols : List String)
  | pong
  | error (message : String)
deriving DecidableEq

/-- One inbound client frame as the endpoint sees it after `json.loads`:
the parse raised `json.JSONDecodeError`; or the parse produced a well-formed
JSON value that is not an object (a list, number, string, bool or null), in
which case `message.get("type")` raises `AttributeError`, caught by the
endpoint's generic `except Exception` handler (lines 42-44) — `errText` is
the `str(e)` of that exception (e.g. a `'list' object has no attribute
'get'` text, determined by the frame's type); or an object with its optional
`"type"` field and its `"symbols"` field (`message.get("symbols", [])`
defaults to the empty list). -/
inductive Inbound
  | invalidJson
  | nonObject (errText : String)
  | obj (ty : Option String) (symbols : List String)
deriving DecidableEq

/-- The per-message body of the endpoint's receive loop (lines 22-44):
`subscribe` is answered with `subscription_confirmed` echoing the symbols,
`ping` with `pong`, a JSON parse failure with the `Invalid JSON` error reply,
a well-formed non-object frame with an error reply carrying the raised
exception's text (the `except Exception` branch, lines 42-44), and a
well-formed object with any other type with nothing.  The `Bool` records
whether handling the message closes the connection — the loop never does;
only a client `WebSocketDisconnect` ends it. -/
def handleMessage : Inbound → List Reply × Bool
  | .invalidJson => ([.error "Invalid JSON"], false)
  | .nonObject errText => ([.error errText], false)
  | .obj ty symbols =>
    if ty = some "subscribe" then ([.subscription_confirmed symbols], false)
    else if ty = some "ping" then ([.pong], false)
    else ([], false)

end WsEndpoint

/-- C8 counterexample: a well-formed but unrecognized payload
(`{"type": "status"}`) is answered with no reply at all — in particular with
no error reply, contrary to the claim that every unrecognized payload gets
one. -/
theorem unrecognized_payload_gets_no_reply :
    (WsEndpoint.handleMessage (.obj (some "status") [])).1 = [] ∧
    ∀ m, WsEndpoint.Reply.error m ∉ (WsEndpoint.handleMessage (.obj (some "status") [])).1 := by
  refine ⟨rfl, ?_⟩
  intro m hmem
  simp [WsEndpoint.handleMessage] at hmem

/-- C8 amended: `subscribe` is answered with `subscription_confirmed`
echoing the symbols, `ping` with `pong`, a malformed (unparseable) payload
with the `Invalid JSON` error reply, and a well-formed payload that is not a
JSON object with an error reply carrying the raised exception's text (via
the endpoint's `except Exception` branch); a well-formed JSON object whose
type is unrecognized or missing gets no reply at all; and no message ever
closes the connection. -/
theorem client_message_protocol_corrected :
    (∀ syms : List String,
      WsEndpoint.handleMessage (.obj (some "subscribe") syms) =
        ([.subscription_confirmed syms], false)) ∧
    (∀ syms : List String,
      WsEndpoint.handleMessage (.obj (some "ping") syms) = ([.pong], false)) ∧
    WsEndpoint.handleMessage .invalidJson = ([.error "Invalid JSON"], false) ∧
    (∀ errText : String,
      WsEndpoint.handleMessage (.nonObject errText) = ([.error errText], false)) ∧
    (∀ (ty : Option String) (syms : List String), ty ≠ some "subscribe" →
      ty ≠ some "ping" → WsEndpoint.handleMessage (.obj ty syms) = ([], false)) ∧
    (∀ msg : WsEndpoint.Inbound, (WsEndpoint.handleMessage msg).2 = false) := by
  refine ⟨fun syms => by simp [WsEndpoint.handleMessage],
    fun syms => by simp [WsEndpoint.handleMessage], rfl, fun errText => rfl, ?_, ?_⟩
  · intro ty syms h1 h2
    simp only [WsEndpoint.handleMessage]
    rw [if_neg h1, if_neg h2]
  · intro msg
    cases msg with
    | invalidJson => rfl
    | nonObject errText => rfl
    | obj ty syms =>
      simp only [WsEndpoint.handleMessage]
      split
      · rfl
      · split <;> rfl

/-- Witness for `client_message_protocol_corrected` at the unrecognized
object payload with type `status`. -/
theorem client_message_protocol_corrected_witness :
    (some "status" ≠ some "subscribe") ∧ (some "status" ≠ some "ping") ∧
    WsEndpoint.handleMessage (.obj (some "status") ["AAPL"]) = ([], false) :=
  ⟨by decide, by decide,
    client_message_protocol_corrected.2.2.2.2.1 (some "status") ["AAPL"]
      (by decide) (by decide)⟩

/-- Helper for the list-based `calculate_rsi` of `ai_trading_backend.py`:
over a window of at least `period` elements (positive period), the result
lies in `[0, 100]` and equals `100` exactly when the trailing average loss is
zero. -/
theorem calculate_rsi_bounded_and_100_iff_no_loss (prices : List ℚ) (period : ℕ)
    (hp : 0 < period) (hlen : period ≤ prices.length) :
    0 ≤ AiTradingBackend.calculate_rsi prices period ∧
    AiTradingBackend.calculate_rsi prices period ≤ 100 ∧
    (AiTradingBackend.calculate_rsi prices period = 100 ↔
      AiTradingBackend.avg_loss prices period = 0) := by
  have hnotshort : ¬ prices.length < period := not_lt.mpr hlen
  unfold AiTradingBackend.calculate_rsi
  rw [if_neg hnotshort]
  by_cases hl : AiTradingBackend.avg_loss prices period = 0
  · rw [if_pos hl]
    refine ⟨by norm_num, le_refl _, ?_⟩
    simp [hl]
  · rw [if_neg hl]
    have hlpos : 0 < AiTradingBackend.avg_loss prices period :=
      lt_of_le_of_ne (AiTradingBackend.avg_loss_nonneg prices period) (Ne.symm hl)
    have hrs : 0 ≤ AiTradingBackend.avg_gain prices period /
        AiTradingBackend.avg_loss prices period :=
      div_nonneg (AiTradingBackend.avg_gain_nonneg prices period) hlpos.le
    have hden : (0:ℚ) < 1 + AiTradingBackend.avg_gain prices period /
        AiTradingBackend.avg_loss prices period := by linarith
    have htpos : 0 < 100 / (1 + AiTradingBackend.avg_gain prices period /
        AiTradingBackend.avg_loss prices period) := by positivity
    have htle : 100 / (1 + AiTradingBackend.avg_gain prices period /
        AiTradingBackend.avg_loss prices period) ≤ 100 :=
      div_le_self (by norm_num) (by linarith)
    refine ⟨by linarith, by linarith, ?_⟩
    constructor
    · intro h100
      exfalso; linarith
    · intro h; exact absurd h hl

/-- The 50-bar perfectly flat close history of the C5 counterexample: every
delta is zero, so every rolling average gain and loss is zero. -/
def flatCloses : List ℚ := List.replicate 50 100

/-- Volume column accompanying `flatCloses`. -/
def flatVols : List ℚ := List.replicate 50 1

theorem zip_cons_replicate_self (c : ℚ) (m : ℕ) :
    (c :: List.replicate m c).zip (List.replicate m c) = List.replicate m (c, c) := by
  induction m with
  | zero => rfl
  | succ k ih =>
    show (c :: (c :: List.replicate k c)).zip (c :: List.replicate k c) =
      (c, c) :: List.replicate k (c, c)
    rw [List.zip_cons_cons, ih]

theorem diffList_replicate (m : ℕ) (c : ℚ) :
    Pandas.diffList (List.replicate (m + 1) c) = none :: List.replicate m (some 0) := by
  show Pandas.diffList (c :: List.replicate m c) = none :: List.replicate m (some 0)
  simp only [Pandas.diffList, List.tail_cons]
  rw [zip_cons_replicate_self, List.map_replicate]
  simp

theorem map_whereGain_flat (m : ℕ) :
    (none :: List.replicate m (some (0:ℚ))).map Pandas.whereGain =
      List.replicate (m + 1) 0 := by
  rw [List.map_cons, List.map_replicate, List.replicate_succ]
  norm_num [Pandas.whereGain]

theorem map_whereLoss_flat (m : ℕ) :
    (none :: List.replicate m (some (0:ℚ))).map Pandas.whereLoss =
      List.replicate (m + 1) 0 := by
  rw [List.map_cons, List.map_replicate, List.replicate_succ]
  norm_num [Pandas.whereLoss]

theorem rollingMean_replicate_zero (w m : ℕ) :
    Pandas.rollingMean w (List.replicate m (0:ℚ)) =
      (List.range m).map (fun i => if w ≤ i + 1 then some (0:ℚ) else none) := by
  unfold Pandas.rollingMean
  rw [List.length_replicate]
  apply List.map_congr_left
  intro i _
  by_cases h : w ≤ i + 1
  · rw [if_pos h, if_pos h]
    congr 1
    rw [List.take_replicate, List.drop_replicate, List.sum_replicate, smul_zero,
      zero_div]
  · rw [if_neg h, if_neg h]

theorem zipWith_rsiOf_zeroish (l1 l2 : List (Option ℚ))
    (h1 : ∀ x ∈ l1, x = none ∨ x = some 0)
    (h2 : ∀ x ∈ l2, x = none ∨ x = some 0) :
    ∀ y ∈ List.zipWith Pandas.rsiOf l1 l2, y = none := by
  induction l1 generalizing l2 with
  | nil => simp
  | cons a t ih =>
    cases l2 with
    | nil => simp
    | cons b t2 =>
      intro y hy
      simp only [List.zipWith, List.mem_cons] at hy
      rcases hy with rfl | hy
      · rcases h1 a (List.mem_cons_self a t) with rfl | rfl
        · cases b <;> rfl
        · rcases h2 b (List.mem_cons_self b t2) with rfl | rfl
          · rfl
          · show Pandas.rsiOf (some 0) (some 0) = none
            simp [Pandas.rsiOf]
      · exact ih t2 (fun x hx => h1 x (List.mem_cons_of_mem a hx))
          (fun x hx => h2 x (List.mem_cons_of_mem b hx)) y hy

theorem filterMap_id_all_none (l : List (Option ℚ)) (h : ∀ x ∈ l, x = none) :
    l.filterMap id = [] := by
  induction l with
  | nil => rfl
  | cons a t ih =>
    have ha : a = none := h a (List.mem_cons_self a t)
    subst ha
    rw [List.filterMap_cons_none rfl]
    exact ih (fun x hx => h x (List.mem_cons_of_mem none hx))

/-- Projection of the service response: with enough history, the reported
current RSI is the truthiness-guarded rounding of the last non-NaN entry of
the pandas RSI series. -/
theorem service_rsi_current_eq (symbol : String) (closes volumes : List ℚ)
    (h : ¬ closes.length < 50) :
    (BackendApp.MarketDataService.get_technical_indicators symbol closes volumes).map
      (fun r => r.rsi.current) =
    Except.ok (BackendApp.pyTruthyMap round2 ((List.zipWith Pandas.rsiOf
      (Pandas.rollingMean BackendApp.rsi_period
        ((Pandas.diffList closes).map Pandas.whereGain))
      (Pandas.rollingMean BackendApp.rsi_period
        ((Pandas.diffList closes).map Pandas.whereLoss))).filterMap id).getLast?) := by
  unfold BackendApp.MarketDataService.get_technical_indicators
  rw [if_neg h]
  rfl

/-- On the flat 50-bar history the whole pandas RSI series is `NaN`, so the
reported current RSI is `None`. -/
theorem flat_history_rsi_current_none :
    (BackendApp.MarketDataService.get_technical_indicators "AAPL" flatCloses flatVols).map
      (fun r => r.rsi.current) = Except.ok none := by
  rw [service_rsi_current_eq "AAPL" flatCloses flatVols (by simp [flatCloses])]
  have hdiff : Pandas.diffList flatCloses = none :: List.replicate 49 (some 0) :=
    diffList_replicate 49 100
  rw [hdiff, map_whereGain_flat 49, map_whereLoss_flat 49, rollingMean_replicate_zero]
  have hX : ∀ x ∈ (List.range (49 + 1)).map
      (fun i => if BackendApp.rsi_period ≤ i + 1 then some (0:ℚ) else none),
      x = none ∨ x = some 0 := by
    intro x hx
    simp only [List.mem_map] at hx
    obtain ⟨i, -, rfl⟩ := hx
    by_cases h : BackendApp.rsi_period ≤ i + 1
    · right; rw [if_pos h]
    · left; rw [if_neg h]
  rw [filterMap_id_all_none _ (zipWith_rsiOf_zeroish _ _ hX hX)]
  rfl

/-- On the flat 50-bar history the trailing rolling average loss is `0`. -/
theorem flat_history_avg_loss_zero :
    (Pandas.rollingMean BackendApp.rsi_period
      ((Pandas.diffList flatCloses).map Pandas.whereLoss)).getLast? = some (some 0) := by
  have hdiff : Pandas.diffList flatCloses = none :: List.replicate 49 (some 0) :=
    diffList_replicate 49 100
  rw [hdiff, map_whereLoss_flat 49, rollingMean_replicate_zero, List.range_succ,
    List.map_append, List.map_singleton, List.getLast?_concat]
  rw [if_pos (by norm_num [BackendApp.rsi_period])]

/-- The reported RSI is `round(., 2)` of the series value, so a window with
average gain `100000/14` and average loss `1/14` (`rs = 100000`, trailing
loss nonzero) reports exactly `100.0` although the exact value is below
`100`. -/
theorem round2_reports_hundred_with_nonzero_loss :
    Pandas.rsiOf (some 100000) (some 1) = some (100 - 100 / (1 + 100000 / 1)) ∧
    round2 (100 - 100 / (1 + 100000 / 1)) = 100 ∧
    (100 - 100 / (1 + 100000 / 1) : ℚ) < 100 := by
  refine ⟨?_, ?_, by norm_num⟩
  · simp only [Pandas.rsiOf]
    norm_num
  · unfold round2
    rw [round_eq]
    have hfloor : ⌊(100 - 100 / (1 + 100000 / 1) : ℚ) * 100 + 1 / 2⌋ = 10000 := by
      rw [Int.floor_eq_iff]
      constructor <;> norm_num
    rw [hfloor]
    norm_num

/-- C5 counterexample: on a 50-bar perfectly flat history — a window far
longer than the RSI period 14 — the pandas RSI of
`MarketDataService.get_technical_indicators` (`market_data.py` lines 92-96)
has trailing average loss `0`, yet the reported current RSI is `None`
(`rs = 0/0` is `NaN`), not `100`: the claimed `RSI = 100` exactly-when-zero-loss
equivalence fails for this cited source, and the `NaN` outcome lies in no
interval at all. -/
theorem pandas_rsi_flat_window_violates_bounds_iff :
    flatCloses.length = 50 ∧
    (BackendApp.MarketDataService.get_technical_indicators "AAPL" flatCloses flatVols).map
      (fun r => r.rsi.current) = Except.ok none ∧
    (Pandas.rollingMean BackendApp.rsi_period
      ((Pandas.diffList flatCloses).map Pandas.whereLoss)).getLast? = some (some 0) ∧
    (none : Option ℚ) ≠ some 100 :=
  ⟨by simp [flatCloses], flat_history_rsi_current_none, flat_history_avg_loss_zero,
   by decide⟩

/-- C5 amended: for the list-based `calculate_rsi` of `ai_trading_backend.py`
over a window of at least the (positive) period, `0 ≤ RSI ≤ 100` and
`RSI = 100` exactly when the trailing average loss over the period is zero.
For the pandas RSI of `market_data.py` the equivalence does not hold at the
boundaries: a flat window has zero average loss yet yields `NaN` (the
reported current RSI is absent, not `100`), and the reported value is rounded
to two decimals, so a window with `rs = 100000` reports exactly `100.0`
although its trailing average loss is nonzero. -/
theorem rsi_bounds_hold_for_list_variant_not_pandas (prices : List ℚ) (period : ℕ)
    (hp : 0 < period) (hlen : period ≤ prices.length) :
    (0 ≤ AiTradingBackend.calculate_rsi prices period ∧
     AiTradingBackend.calculate_rsi prices period ≤ 100 ∧
     (AiTradingBackend.calculate_rsi prices period = 100 ↔
       AiTradingBackend.avg_loss prices period = 0)) ∧
    (BackendApp.MarketDataService.get_technical_indicators "AAPL" flatCloses flatVols).map
      (fun r => r.rsi.current) = Except.ok none ∧
    (Pandas.rollingMean BackendApp.rsi_period
      ((Pandas.diffList flatCloses).map Pandas.whereLoss)).getLast? = some (some 0) ∧
    Pandas.rsiOf (some 100000) (some 1) = some (100 - 100 / (1 + 100000 / 1)) ∧
    round2 (100 - 100 / (1 + 100000 / 1)) = 100 ∧
    (100 - 100 / (1 + 100000 / 1) : ℚ) < 100 :=
  ⟨calculate_rsi_bounded_and_100_iff_no_loss prices period hp hlen,
   flat_history_rsi_current_none, flat_history_avg_loss_zero,
   round2_reports_hundred_with_nonzero_loss.1,
   round2_reports_hundred_with_nonzero_loss.2.1,
   round2_reports_hundred_with_nonzero_loss.2.2⟩

/-- Witness for `rsi_bounds_hold_for_list_variant_not_pandas` at the strictly
increasing window `[1, 2, 3]` with period `2` (average loss `0`, RSI `100`). -/
theorem rsi_bounds_list_variant_witness :
    0 < 2 ∧ 2 ≤ [(1:ℚ), 2, 3].length ∧
    ((0 ≤ AiTradingBackend.calculate_rsi [(1:ℚ), 2, 3] 2 ∧
      AiTradingBackend.calculate_rsi [(1:ℚ), 2, 3] 2 ≤ 100 ∧
      (AiTradingBackend.calculate_rsi [(1:ℚ), 2, 3] 2 = 100 ↔
        AiTradingBackend.avg_loss [(1:ℚ), 2, 3] 2 = 0)) ∧
     (BackendApp.MarketDataService.get_technical_indicators "AAPL" flatCloses flatVols).map
       (fun r => r.rsi.current) = Except.ok none ∧
     (Pandas.rollingMean BackendApp.rsi_period
       ((Pandas.diffList flatCloses).map Pandas.whereLoss)).getLast? = some (some 0) ∧
     Pandas.rsiOf (some 100000) (some 1) = some (100 - 100 / (1 + 100000 / 1)) ∧
     round2 (100 - 100 / (1 + 100000 / 1)) = 100 ∧
     (100 - 100 / (1 + 100000 / 1) : ℚ) < 100) :=
  ⟨by decide, by decide,
    rsi_bounds_hold_for_list_variant_not_pandas [(1:ℚ), 2, 3] 2 (by decide) (by decide)⟩

end Trade
